import Mathlib

/-!
Verification of the health-records API module (`app/api/routes/health_records.py`)
of the abdm-hospital repository, as a shallow embedding in Lean 4.

Python strings are embedded as `List Char` (`Str`).  Python's `str.strip`,
`str.removeprefix`, `str.removesuffix`, `uuid.UUID`, `datetime.fromisoformat` /
`isoformat` and `json.loads` are modelled by executable Lean functions below.
ASCII whitespace is modelled (the relevant inputs are ASCII).
-/

abbrev Str := List Char

/-- Whitespace characters removed by Python `str.strip()` (ASCII subset). -/
def pyWs (c : Char) : Bool :=
  c = ' ' || c = '\t' || c = '\n' || c = '\r' || c = '\x0b' || c = '\x0c'

/-- Python `str.lstrip()`. -/
def pyLStrip (s : Str) : Str := s.dropWhile pyWs

/-- Python `str.rstrip()`. -/
def pyRStrip (s : Str) : Str := (s.reverse.dropWhile pyWs).reverse

/-- Python `str.strip()`. -/
def pyStrip (s : Str) : Str := pyRStrip (pyLStrip s)

/-- Python `str.removeprefix`: drop `p` from the front of `s` when it is a
prefix, otherwise return `s` unchanged. -/
def removeprefixPy (s p : Str) : Str :=
  if p <+: s then s.drop p.length else s

/-- Python `str.removesuffix`: drop `p` from the end of `s` when it is a
suffix, otherwise return `s` unchanged. -/
def removesuffixPy (s p : Str) : Str :=
  if p ≠ [] ∧ p <:+ s then s.take (s.length - p.length) else s

/-- Remove every occurrence of the pattern `pat` from `s` (Python
`str.replace(pat, "")`), with explicit fuel for termination. -/
def removeOcc (pat : Str) : Nat → Str → Str
  | 0, s => s
  | fuel + 1, s =>
    if pat ≠ [] ∧ pat <+: s then removeOcc pat fuel (s.drop pat.length)
    else
      match s with
      | [] => []
      | c :: rest => c :: removeOcc pat fuel rest

/-- Python `str.replace(pat, "")`. -/
def removeAll (pat s : Str) : Str := removeOcc pat s.length s

def isBraceChar (c : Char) : Bool := c = '\x7b' || c = '\x7d'

/-- Python `str.strip('\x7b\x7d')`: strip curly braces from both ends. -/
def stripBraces (s : Str) : Str :=
  ((s.dropWhile isBraceChar).reverse.dropWhile isBraceChar).reverse

def isHexDigitPy (c : Char) : Bool :=
  c.isDigit || ('a' ≤ c && c ≤ 'f') || ('A' ≤ c && c ≤ 'F')

/-- A UUID in canonical form: 32 lowercase hexadecimal digits. -/
abbrev UUID := Str

/-- Models Python `uuid.UUID(hex=s)` (as called by the routes): strip the
`urn:`/`uuid:` markers, surrounding braces and hyphens; the remainder must be
exactly 32 hex digits.  Returns the canonical lowercase digits. -/
def parseUUID (s : Str) : Option UUID :=
  let h := removeAll ("uuid:".data) (removeAll ("urn:".data) s)
  let h := removeAll ("-".data) (stripBraces h)
  if h.length = 32 ∧ h.all isHexDigitPy then some (h.map Char.toLower) else none

/-- `u` is already in the canonical form produced by `parseUUID`:
32 hex digits, each fixed by lowercasing. -/
def isCanonicalUUID (u : UUID) : Bool :=
  u.length == 32 && u.all (fun c => isHexDigitPy c && (Char.toLower c == c))

-- ===========================================================================
-- datetime: the subset of `datetime.fromisoformat` / `datetime.isoformat`
-- exercised by the routes (naive date-times, no timezone offsets).
-- ===========================================================================

structure PyDateTime where
  year : Nat
  month : Nat
  day : Nat
  hour : Nat
  minute : Nat
  second : Nat
  microsecond : Nat
deriving DecidableEq

def digitVal (c : Char) : Nat := c.toNat - '0'.toNat

/-- Read exactly `n` decimal digits, returning their value and the rest. -/
def readNDigits (acc : Nat) : Nat → Str → Option (Nat × Str)
  | 0, s => some (acc, s)
  | _ + 1, [] => none
  | n + 1, c :: rest =>
    if c.isDigit then readNDigits (acc * 10 + digitVal c) n rest else none

def expectChar (c : Char) : Str → Option Str
  | [] => none
  | c' :: rest => if c' = c then some rest else none

def isLeapYear (y : Nat) : Bool :=
  (y % 4 == 0 && y % 100 != 0) || y % 400 == 0

def daysInMonth (y m : Nat) : Nat :=
  if m = 2 then (if isLeapYear y then 29 else 28)
  else if m = 4 ∨ m = 6 ∨ m = 9 ∨ m = 11 then 30
  else 31

/-- Read `.ffffff` fractional seconds (1 to 6 digits), scaled to microseconds. -/
def readFraction : Str → Option (Nat × Str)
  | s =>
    let digits := s.takeWhile Char.isDigit
    let rest := s.dropWhile Char.isDigit
    if 1 ≤ digits.length ∧ digits.length ≤ 6 then
      let v := digits.foldl (fun a c => a * 10 + digitVal c) 0
      some (v * 10 ^ (6 - digits.length), rest)
    else none

/-- Parse the optional time-of-day part `HH:MM[:SS[.ffffff]]`. -/
def parseTimePart (s : Str) : Option (Nat × Nat × Nat × Nat) := do
  let (h, s) ← readNDigits 0 2 s
  let s ← expectChar ':' s
  let (mi, s) ← readNDigits 0 2 s
  let (sec, usec, s) ←
    match expectChar ':' s with
    | none => pure (0, 0, s)
    | some s => do
      let (sec, s) ← readNDigits 0 2 s
      match expectChar '.' s with
      | none => pure (sec, 0, s)
      | some s => do
        let (usec, s) ← readFraction s
        pure (sec, usec, s)
  if s = [] ∧ h ≤ 23 ∧ mi ≤ 59 ∧ sec ≤ 59 then
    some (h, mi, sec, usec)
  else none

/-- Models `datetime.fromisoformat` on naive date-times:
`YYYY-MM-DD[{T| }HH:MM[:SS[.ffffff]]]`, with calendar validation.
Returns `none` where the Python call raises `ValueError`. -/
def fromisoformat (s : Str) : Option PyDateTime := do
  let (y, s) ← readNDigits 0 4 s
  let s ← expectChar '-' s
  let (m, s) ← readNDigits 0 2 s
  let s ← expectChar '-' s
  let (d, s) ← readNDigits 0 2 s
  if 1 ≤ y ∧ y ≤ 9999 ∧ 1 ≤ m ∧ m ≤ 12 ∧ 1 ≤ d ∧ d ≤ daysInMonth y m then
    match s with
    | [] => some ⟨y, m, d, 0, 0, 0, 0⟩
    | sep :: rest =>
      if sep = 'T' ∨ sep = ' ' then
        let (h, mi, sec, usec) ← parseTimePart rest
        some ⟨y, m, d, h, mi, sec, usec⟩
      else none
  else none

/-- Render `n` as decimal, left-padded with zeros to width `w`. -/
def padNum (w n : Nat) : Str :=
  let ds := Nat.toDigits 10 n
  List.replicate (w - ds.length) '0' ++ ds

/-- Models `datetime.isoformat()`: `YYYY-MM-DDTHH:MM:SS[.ffffff]`
(microseconds printed only when non-zero). -/
def isoformat (d : PyDateTime) : Str :=
  padNum 4 d.year ++ '-' :: padNum 2 d.month ++ '-' :: padNum 2 d.day ++
  'T' :: padNum 2 d.hour ++ ':' :: padNum 2 d.minute ++ ':' :: padNum 2 d.second ++
  (if d.microsecond = 0 then [] else '.' :: padNum 6 d.microsecond)

/-- Total order key used to compare date-times (models `datetime` comparison;
the factors bound each field's range). -/
def dtKey (d : PyDateTime) : Nat :=
  (((((d.year * 13 + d.month) * 32 + d.day) * 24 + d.hour) * 60 + d.minute)
    * 60 + d.second) * 1000000 + d.microsecond

-- ===========================================================================
-- JSON: the subset of `json.loads` needed to model `_parse_json_safely`.
-- Numbers are kept as their source lexeme (their numeric value is never
-- inspected by the routes).
-- ===========================================================================

inductive Json where
  | null : Json
  | bool : Bool → Json
  | num : Str → Json
  | str : Str → Json
  | arr : List Json → Json
  | obj : List (Str × Json) → Json

/-- JSON insignificant whitespace (RFC 8259, as accepted by `json.loads`). -/
def jsonWs (c : Char) : Bool :=
  c = ' ' || c = '\t' || c = '\n' || c = '\r'

/-- Lex a JSON string literal body after the opening quote, handling the
escape sequences `json.loads` accepts (`\uXXXX` restricted to non-surrogate
code points). -/
def lexStringBody (fuel : Nat) (cs : Str) (acc : Str) : Option (Str × Str) :=
  match fuel, cs with
  | 0, _ => none
  | _ + 1, [] => none
  | fuel + 1, c :: rest =>
    if c = '"' then some (acc.reverse, rest)
    else if c = '\\' then
      match rest with
      | [] => none
      | e :: rest' =>
        if e = '"' then lexStringBody fuel rest' ('"' :: acc)
        else if e = '\\' then lexStringBody fuel rest' ('\\' :: acc)
        else if e = '/' then lexStringBody fuel rest' ('/' :: acc)
        else if e = 'b' then lexStringBody fuel rest' ('\x08' :: acc)
        else if e = 'f' then lexStringBody fuel rest' ('\x0c' :: acc)
        else if e = 'n' then lexStringBody fuel rest' ('\n' :: acc)
        else if e = 'r' then lexStringBody fuel rest' ('\r' :: acc)
        else if e = 't' then lexStringBody fuel rest' ('\t' :: acc)
        else if e = 'u' then
          match rest' with
          | h1 :: h2 :: h3 :: h4 :: rest'' =>
            if (h1.isDigit || ('a' ≤ h1 && h1 ≤ 'f') || ('A' ≤ h1 && h1 ≤ 'F')) &&
               (h2.isDigit || ('a' ≤ h2 && h2 ≤ 'f') || ('A' ≤ h2 && h2 ≤ 'F')) &&
               (h3.isDigit || ('a' ≤ h3 && h3 ≤ 'f') || ('A' ≤ h3 && h3 ≤ 'F')) &&
               (h4.isDigit || ('a' ≤ h4 && h4 ≤ 'f') || ('A' ≤ h4 && h4 ≤ 'F')) then
              let hv := fun (c : Char) =>
                if c.isDigit then digitVal c
                else if 'a' ≤ c then c.toNat - 'a'.toNat + 10
                else c.toNat - 'A'.toNat + 10
              let n := ((hv h1 * 16 + hv h2) * 16 + hv h3) * 16 + hv h4
              if n < 0xd800 then lexStringBody fuel rest'' (Char.ofNat n :: acc)
              else none
            else none
          | _ => none
        else none
    else if c.toNat < 0x20 then none
    else lexStringBody fuel rest (c :: acc)

/-- Lex a JSON number lexeme: `-?(0|[1-9][0-9]*)(.[0-9]+)?([eE][+-]?[0-9]+)?`. -/
def lexNumber (cs : Str) : Option (Str × Str) :=
  let (sign, cs1) :=
    match cs with
    | '-' :: rest => (['-'], rest)
    | _ => (([] : Str), cs)
  let intPart := cs1.takeWhile Char.isDigit
  let cs2 := cs1.dropWhile Char.isDigit
  if intPart = [] then none
  else if intPart.length > 1 ∧ intPart.headD '0' = '0' then none
  else
    let (fracPart, cs3) :=
      match cs2 with
      | '.' :: rest =>
        let ds := rest.takeWhile Char.isDigit
        if ds = [] then (none, cs2) else (some ('.' :: ds), rest.dropWhile Char.isDigit)
      | _ => (none, cs2)
    match fracPart, cs2 with
    | none, '.' :: _ => none
    | _, _ =>
      let (expPart, cs4) :=
        match cs3 with
        | e :: rest =>
          if e = 'e' ∨ e = 'E' then
            let (es, rest') :=
              match rest with
              | s :: r => if s = '+' ∨ s = '-' then ([e, s], r) else ([e], rest)
              | [] => ([e], rest)
            let ds := rest'.takeWhile Char.isDigit
            if ds = [] then (none, cs3) else (some (es ++ ds), rest'.dropWhile Char.isDigit)
          else (none, cs3)
        | [] => (none, cs3)
      match expPart, cs3 with
      | none, e :: _ =>
        if e = 'e' ∨ e = 'E' then none
        else some (sign ++ intPart ++ (fracPart.getD []) ++ [], cs3)
      | none, [] => some (sign ++ intPart ++ (fracPart.getD []), cs3)
      | some ex, _ => some (sign ++ intPart ++ (fracPart.getD []) ++ ex, cs4)

mutual
/-- Recursive-descent JSON value parser (models the grammar of `json.loads`). -/
def parseValue : Nat → Str → Option (Json × Str)
  | 0, _ => none
  | fuel + 1, cs =>
    let cs := cs.dropWhile jsonWs
    match cs with
    | [] => none
    | c :: rest =>
      if c = '\x7b' then parseObjItems fuel rest true []
      else if c = '[' then parseArrItems fuel rest true []
      else if c = '"' then
        match lexStringBody (rest.length + 1) rest [] with
        | some (s, rest') => some (Json.str s, rest')
        | none => none
      else if c = 'n' then
        if ("ull".data) <+: rest then some (Json.null, rest.drop 3) else none
      else if c = 't' then
        if ("rue".data) <+: rest then some (Json.bool true, rest.drop 3) else none
      else if c = 'f' then
        if ("alse".data) <+: rest then some (Json.bool false, rest.drop 4) else none
      else if c = '-' ∨ c.isDigit then
        match lexNumber (c :: rest) with
        | some (tok, rest') => some (Json.num tok, rest')
        | none => none
      else none

/-- Parse object members after `\x7b`; `first` marks that no member was read yet. -/
def parseObjItems : Nat → Str → Bool → List (Str × Json) → Option (Json × Str)
  | 0, _, _, _ => none
  | fuel + 1, cs, first, acc =>
    let cs := cs.dropWhile jsonWs
    match cs with
    | [] => none
    | c :: rest =>
      if c = '\x7d' then
        if first || !acc.isEmpty then some (Json.obj acc.reverse, rest) else none
      else
        let cs2 := if first then c :: rest else
          if c = ',' then rest.dropWhile jsonWs else []
        match cs2 with
        | [] => none
        | q :: rest2 =>
          if q = '"' then
            match lexStringBody (rest2.length + 1) rest2 [] with
            | none => none
            | some (key, afterKey) =>
              match (afterKey.dropWhile jsonWs) with
              | ':' :: afterColon =>
                match parseValue fuel afterColon with
                | none => none
                | some (v, afterVal) => parseObjItems fuel afterVal false ((key, v) :: acc)
              | _ => none
          else none

/-- Parse array elements after `[`. -/
def parseArrItems : Nat → Str → Bool → List Json → Option (Json × Str)
  | 0, _, _, _ => none
  | fuel + 1, cs, first, acc =>
    let cs := cs.dropWhile jsonWs
    match cs with
    | [] => none
    | c :: rest =>
      if c = ']' then
        if first || !acc.isEmpty then some (Json.arr acc.reverse, rest) else none
      else
        let cs2 := if first then c :: rest else
          if c = ',' then rest else []
        match cs2 with
        | [] => none
        | _ =>
          match parseValue fuel cs2 with
          | none => none
          | some (v, afterVal) => parseArrItems fuel afterVal false (v :: acc)
end

/-- Models Python `json.loads`: parse one JSON value, allowing surrounding
whitespace only; `none` where Python raises `JSONDecodeError`. -/
def json_loads (s : Str) : Option Json :=
  match parseValue (s.length + 1) s with
  | some (v, rest) => if rest.dropWhile jsonWs = [] then some v else none
  | none => none

/-- The fence-stripping step of `_parse_json_safely`: strip the text; when it
starts with a triple-backtick fence, drop a leading ` ```json ` or ` ``` `
marker and a trailing ` ``` ` marker and strip again. -/
def parse_json_clean (text : Str) : Str :=
  let cleaned := pyStrip text
  if ("```".data) <+: cleaned then
    pyStrip (removesuffixPy (removeprefixPy (removeprefixPy cleaned ("```json".data)) ("```".data)) ("```".data))
  else cleaned

/-- Models `_parse_json_safely`: fence stripping followed by `json.loads`. -/
def parse_json_safely (text : Str) : Option Json :=
  json_loads (parse_json_clean text)

-- ===========================================================================
-- Data model (app.database.models, as used by the routes) and the
-- observable effects of a request against the backing store and the
-- external collaborators.
-- ===========================================================================

structure Patient where
  id : UUID
  name : Str
  mobile : Str
  abha_id : Str
deriving DecidableEq

structure HealthRecord where
  id : UUID
  patient_id : UUID
  record_type : Str
  record_date : PyDateTime
  data_json : Json
  data_text : Option Str
  source_hospital : Option Str
  request_id : Option Str
  was_encrypted : Bool
  decryption_status : Str
  delivery_attempt : Nat
  created_at : PyDateTime
  updated_at : PyDateTime

structure Store where
  patients : List Patient
  records : List HealthRecord

/-- HTTP error responses raised via `HTTPException` (or produced by the
framework for unhandled exceptions / response-validation failures). -/
inductive ApiError where
  | badRequest (detail : Str)
  | notFound (detail : Str)
  | internalError (detail : Str)
deriving DecidableEq

/-- Observable side effects of a request: queries and writes against the
backing store, and the steps of the scan pipeline. -/
inductive Eff where
  | recordsQuery (pid : Str)
  | patientLookup (pu : UUID)
  | recordLookup (pu ru : UUID)
  | insertRecord (rid : UUID)
  | deleteRecord (rid : UUID)
  | saveUpload
  | ocrCall
  | clientInit
  | generateCall
  | removeTmp
deriving DecidableEq

/-- Serialized health record (`HealthRecordResponse` fields as returned by
the routes' response dictionaries). -/
structure HealthRecordResponse where
  id : Str
  type : Str
  date : Str
  sourceHospital : Option Str
  data : Json
  receivedAt : Str
  requestId : Option Str

/-- Request body of the create endpoint (`CreateHealthRecordRequest`); note
that the schema has no id field, so a client cannot supply one. -/
structure CreateHealthRecordRequest where
  recordType : Str
  recordDate : Str
  data : Json
  dataText : Option Str

/-- Per-request server-side environment: the UUID that `uuid.uuid4()` yields
and the instant `datetime.utcnow()` yields during this request. -/
structure ReqEnv where
  freshId : UUID
  now : PyDateTime

def findPatient (st : Store) (pu : UUID) : Option Patient :=
  st.patients.find? (fun p => p.id == pu)

def findRecord (st : Store) (pu ru : UUID) : Option HealthRecord :=
  st.records.find? (fun r => r.id == ru && r.patient_id == pu)

def recordToResponse (r : HealthRecord) : HealthRecordResponse :=
  { id := r.id
    type := r.record_type
    date := isoformat r.record_date
    sourceHospital := r.source_hospital
    data := r.data_json
    receivedAt := isoformat r.created_at
    requestId := r.request_id }

def matchOptFilter (f : Option Str) (v : Str) : Bool :=
  match f with
  | none => true
  | some t => v == t

def matchSourceFilter (f : Option Str) (v : Option Str) : Bool :=
  match f with
  | none => true
  | some h => v == some h

-- ===========================================================================
-- Spec-modelled services (app.services.health_data_service is not under
-- src/; only this routes file is).
-- ===========================================================================

/-- Modelled from the spec: `get_health_records_for_patient` from
`app.services.health_data_service` (code not under src/).  Per spec section 4.2 it
queries the record store for the patient's records with conjunctive optional
type/source filters, preserving store order, and returns the empty collection
when nothing matches (in particular for an identifier owning no records). -/
def get_health_records_for_patient (st : Store) (pid : Str)
    (record_type source_hospital : Option Str) : List HealthRecord × List Eff :=
  ((match parseUUID pid with
    | none => []
    | some pu =>
      st.records.filter (fun r =>
        r.patient_id == pu && matchOptFilter record_type r.record_type &&
          matchSourceFilter source_hospital r.source_hospital)),
   [Eff.recordsQuery pid])

/-- Modelled from the spec: `get_external_health_records` from
`app.services.health_data_service` (code not under src/): the patient's records
whose source hospital is set (spec section 4.2). -/
def get_external_health_records (st : Store) (pid : Str) :
    List HealthRecord × List Eff :=
  ((match parseUUID pid with
    | none => []
    | some pu =>
      st.records.filter (fun r => r.patient_id == pu && !r.source_hospital.isNone)),
   [Eff.recordsQuery pid])

/-- Raw summary data produced by the summary service, before response-model
serialization. -/
structure SummaryData where
  totalRecords : Nat
  byType : List (Str × Nat)
  bySource : List (Str × Nat)
  lastUpdated : Option Str
deriving DecidableEq

/-- Serialized summary response; mirrors `HealthRecordSummaryResponse` from
the source, whose `lastUpdated` field is a required (non-optional) string. -/
structure HealthRecordSummaryResponse where
  totalRecords : Nat
  byType : List (Str × Nat)
  bySource : List (Str × Nat)
  lastUpdated : Str
deriving DecidableEq

def addCount (k : Str) : List (Str × Nat) → List (Str × Nat)
  | [] => [(k, 1)]
  | (k', n) :: rest => if k' == k then (k', n + 1) :: rest else (k', n) :: addCount k rest

def latestStamp (rs : List HealthRecord) : Option PyDateTime :=
  rs.foldl
    (fun acc r =>
      let m := if dtKey r.updated_at ≤ dtKey r.created_at then r.created_at else r.updated_at
      some (match acc with
            | none => m
            | some d => if dtKey d ≤ dtKey m then m else d))
    none

/-- Modelled from the spec: `get_health_record_summary` from
`app.services.health_data_service` (code not under src/).  Per spec section 4.2 it
returns the total record count, a type-to-count mapping, a source-to-count
mapping (records with no source hospital are excluded from `bySource`; the
spec leaves the bucketing of local records open), and the most recent
updated/created timestamp; for zero records total is 0, both mappings are
empty and last-updated is absent/null. -/
def get_health_record_summary (st : Store) (pid : Str) : SummaryData × List Eff :=
  let recs :=
    match parseUUID pid with
    | none => []
    | some pu => st.records.filter (fun r => r.patient_id == pu)
  ({ totalRecords := recs.length
     byType := recs.foldl (fun m r => addCount r.record_type m) []
     bySource := recs.foldl
       (fun m r => match r.source_hospital with
                   | none => m
                   | some h => addCount h m) []
     lastUpdated := (latestStamp recs).map isoformat },
   [Eff.recordsQuery pid])

-- ===========================================================================
-- Endpoints (the route handlers of health_records.py).  Each returns the
-- HTTP-level result together with the list of effects performed; write
-- endpoints additionally return the resulting store.
-- ===========================================================================

/-- `GET /\x7bpatient_id\x7d` — list a patient's records with optional filters; the
service query runs first, and identifier validation / patient existence are
checked only when the result is empty. -/
def list_health_records (st : Store) (patient_id : Str)
    (record_type source_hospital : Option Str) :
    Except ApiError (List HealthRecordResponse) × List Eff :=
  let (records, e1) := get_health_records_for_patient st patient_id record_type source_hospital
  if records.isEmpty then
    match parseUUID patient_id with
    | none => (.error (.badRequest ("Invalid patient ID format".data)), e1)
    | some pu =>
      match findPatient st pu with
      | none =>
        (.error (.notFound (("Patient ".data) ++ patient_id ++ (" not found".data))),
         e1 ++ [Eff.patientLookup pu])
      | some _ => (.ok [], e1 ++ [Eff.patientLookup pu])
  else (.ok (records.map recordToResponse), e1)

/-- `GET /\x7bpatient_id\x7d/summary` — validate the identifier, check the patient
exists, run the summary service, then serialize through
`HealthRecordSummaryResponse` (whose `lastUpdated` is a required string, so a
null last-updated value fails response validation). -/
def get_patient_health_summary (st : Store) (patient_id : Str) :
    Except ApiError HealthRecordSummaryResponse × List Eff :=
  match parseUUID patient_id with
  | none => (.error (.badRequest ("Invalid patient ID format".data)), [])
  | some pu =>
    match findPatient st pu with
    | none =>
      (.error (.notFound (("Patient ".data) ++ patient_id ++ (" not found".data))),
       [Eff.patientLookup pu])
    | some _ =>
      let (s, e2) := get_health_record_summary st patient_id
      match s.lastUpdated with
      | none =>
        (.error (.internalError ("response validation failed: lastUpdated must be a string".data)),
         [Eff.patientLookup pu] ++ e2)
      | some t =>
        (.ok { totalRecords := s.totalRecords, byType := s.byType,
               bySource := s.bySource, lastUpdated := t },
         [Eff.patientLookup pu] ++ e2)

/-- `GET /\x7bpatient_id\x7d/external` — validate the identifier, check the patient
exists, then list the records received from other hospitals. -/
def list_external_health_records (st : Store) (patient_id : Str) :
    Except ApiError (List HealthRecordResponse) × List Eff :=
  match parseUUID patient_id with
  | none => (.error (.badRequest ("Invalid patient ID format".data)), [])
  | some pu =>
    match findPatient st pu with
    | none =>
      (.error (.notFound (("Patient ".data) ++ patient_id ++ (" not found".data))),
       [Eff.patientLookup pu])
    | some _ =>
      let (records, e2) := get_external_health_records st patient_id
      (.ok (records.map recordToResponse), [Eff.patientLookup pu] ++ e2)

/-- `GET /\x7bpatient_id\x7d/\x7brecord_id\x7d` — fetch one record scoped to both the
record id and the owning patient id. -/
def get_health_record_details (st : Store) (patient_id record_id : Str) :
    Except ApiError HealthRecordResponse × List Eff :=
  match parseUUID patient_id with
  | none => (.error (.badRequest ("Invalid ID format".data)), [])
  | some pu =>
    match parseUUID record_id with
    | none => (.error (.badRequest ("Invalid ID format".data)), [])
    | some ru =>
      match findRecord st pu ru with
      | none =>
        (.error (.notFound (("Health record ".data) ++ record_id ++
                 (" not found for patient ".data) ++ patient_id)),
         [Eff.recordLookup pu ru])
      | some r => (.ok (recordToResponse r), [Eff.recordLookup pu ru])

/-- `POST /\x7bpatient_id\x7d` — create a local record: validate the identifier,
check the patient exists, parse the record date (an invalid date raises an
unhandled `ValueError`), then insert a freshly-identified record stamped with
the current time and `source_hospital = None`. -/
def create_health_record (env : ReqEnv) (st : Store) (patient_id : Str)
    (request : CreateHealthRecordRequest) :
    Except ApiError HealthRecordResponse × List Eff × Store :=
  match parseUUID patient_id with
  | none => (.error (.badRequest ("Invalid patient ID format".data)), [], st)
  | some pu =>
    match findPatient st pu with
    | none =>
      (.error (.notFound (("Patient ".data) ++ patient_id ++ (" not found".data))),
       [Eff.patientLookup pu], st)
    | some _ =>
      match fromisoformat request.recordDate with
      | none =>
        (.error (.internalError ("ValueError: invalid isoformat string".data)),
         [Eff.patientLookup pu], st)
      | some d =>
        let new_record : HealthRecord :=
          { id := env.freshId
            patient_id := pu
            record_type := request.recordType
            record_date := d
            data_json := request.data
            data_text := request.dataText
            source_hospital := none
            request_id := none
            was_encrypted := false
            decryption_status := ("NONE".data)
            delivery_attempt := 0
            created_at := env.now
            updated_at := env.now }
        (.ok (recordToResponse new_record),
         [Eff.patientLookup pu, Eff.insertRecord env.freshId],
         { st with records := st.records ++ [new_record] })

/-- Response body of the delete endpoint. -/
structure DeleteResponse where
  status : Str
  recordId : Str
  message : Str
deriving DecidableEq

/-- `DELETE /\x7bpatient_id\x7d/\x7brecord_id\x7d` — delete one record scoped to both
ids; the row found by the scoped query is removed by primary key. -/
def delete_health_record (st : Store) (patient_id record_id : Str) :
    Except ApiError DeleteResponse × List Eff × Store :=
  match parseUUID patient_id with
  | none => (.error (.badRequest ("Invalid ID format".data)), [], st)
  | some pu =>
    match parseUUID record_id with
    | none => (.error (.badRequest ("Invalid ID format".data)), [], st)
    | some ru =>
      match findRecord st pu ru with
      | none =>
        (.error (.notFound (("Health record ".data) ++ record_id ++
                 (" not found for patient ".data) ++ patient_id)),
         [Eff.recordLookup pu ru], st)
      | some _ =>
        (.ok { status := ("DELETED".data), recordId := record_id,
               message := ("Health record ".data) ++ record_id ++
                 (" deleted successfully".data) },
         [Eff.recordLookup pu ru, Eff.deleteRecord ru],
         { st with records := st.records.filter (fun r => !(r.id == ru)) })

/-- `GET /\x7bpatient_id\x7d/by-type/\x7brecord_type\x7d` — list records of one type;
the service query runs first, identifier validation only on an empty result. -/
def get_records_by_type (st : Store) (patient_id record_type : Str) :
    Except ApiError (List HealthRecordResponse) × List Eff :=
  let (records, e1) := get_health_records_for_patient st patient_id (some record_type) none
  if records.isEmpty then
    match parseUUID patient_id with
    | none => (.error (.badRequest ("Invalid patient ID format".data)), e1)
    | some pu =>
      match findPatient st pu with
      | none =>
        (.error (.notFound (("Patient ".data) ++ patient_id ++ (" not found".data))),
         e1 ++ [Eff.patientLookup pu])
      | some _ => (.ok [], e1 ++ [Eff.patientLookup pu])
  else (.ok (records.map recordToResponse), e1)

/-- `GET /\x7bpatient_id\x7d/from-hospital/\x7bhospital_id\x7d` — list records from one
source hospital; same query-first shape as the other list endpoints. -/
def get_records_from_hospital (st : Store) (patient_id hospital_id : Str) :
    Except ApiError (List HealthRecordResponse) × List Eff :=
  let (records, e1) := get_health_records_for_patient st patient_id none (some hospital_id)
  if records.isEmpty then
    match parseUUID patient_id with
    | none => (.error (.badRequest ("Invalid patient ID format".data)), e1)
    | some pu =>
      match findPatient st pu with
      | none =>
        (.error (.notFound (("Patient ".data) ++ patient_id ++ (" not found".data))),
         e1 ++ [Eff.patientLookup pu])
      | some _ => (.ok [], e1 ++ [Eff.patientLookup pu])
  else (.ok (records.map recordToResponse), e1)

-- ===========================================================================
-- Scan pipeline (upload → OCR → Gemini extraction).
-- ===========================================================================

/-- Result of the gradio OCR call: a single text, or a sequence whose first
element is the text. -/
inductive OcrOut where
  | single (t : Str)
  | listRes (ts : List Str)

/-- Environment of one scan request: availability of the optional ML client
libraries, the process configuration read from the environment, and the
outcomes of the external calls (upload write, OCR call, Gemini generate). -/
structure ScanEnv where
  ocrAvailable : Bool
  geminiInstalled : Bool
  apiKeyEnv : Option Str
  modelEnv : Option Str
  promptEnv : Option Str
  saveUploadResult : Except Str Unit
  ocrResult : Except Str OcrOut
  generate : Str → Except Str Str

/-- `GeminiConfig.system_prompt` default value. -/
def defaultSystemPrompt : Str :=
  ("You are an AI that extracts structured data from medical prescriptions.\nExtract ONLY the following fields:\n- patient_name\n- doctor_name\n- symptoms\n- prescription\n- dosage\n- doctor_notes\n\nRules:\n1. Return ONLY a valid JSON object.\n2. No explanations, no markdown.\n3. Use null if a field is missing.".data)

/-- `GeminiConfig.api_key`: the `GEMINI_API_KEY` environment value; raises
(`Except.error`) when unset or empty. -/
def GeminiConfig.api_key (env : ScanEnv) : Except Str Str :=
  match env.apiKeyEnv with
  | none => .error ("GEMINI_API_KEY is not configured".data)
  | some k => if k = [] then .error ("GEMINI_API_KEY is not configured".data) else .ok k

/-- `GeminiConfig.model`: `GEMINI_MODEL` with its default. -/
def GeminiConfig.model (env : ScanEnv) : Str :=
  env.modelEnv.getD ("gemini-2.5-flash".data)

/-- `GeminiConfig.system_prompt`: `GEMINI_SYSTEM_PROMPT` with its default. -/
def GeminiConfig.system_prompt (env : ScanEnv) : Str :=
  env.promptEnv.getD defaultSystemPrompt

/-- `_initialize_gemini_client`: fails when `google.genai` is missing or the
API key is not configured. -/
def initialize_gemini_client (env : ScanEnv) : Except Str Unit :=
  if !env.geminiInstalled then .error ("google.genai is not installed in the environment".data)
  else (GeminiConfig.api_key env).map (fun _ => ())

/-- `_build_prompt`: the fixed template wrapped around the OCR text, stripped. -/
def build_prompt (ocr_text : Str) : Str :=
  pyStrip (("\nPrescription Text:\n".data) ++ ocr_text ++
    ("\n\nExpected JSON format:\n\x7b\n  \"patient_name\": null,\n  \"doctor_name\": null,\n  \"symptoms\": null,\n  \"prescription\": null,\n  \"dosage\": null,\n  \"doctor_notes\": null\n\x7d\n".data))

/-- In-band result payload of the extraction step. -/
structure ExtractResult where
  success : Bool
  data : Option Json
  error : Option Str

/-- `extract_structured_data`: short-circuit on blank OCR text, initialize the
Gemini client, call generate, parse the response; every exception is caught
and folded into a `success = false` payload (never raised to the caller).
`not ocr_text or not ocr_text.strip()` is equivalent to `strip` being empty. -/
def extract_structured_data (env : ScanEnv) (ocr_text : Str) :
    ExtractResult × List Eff :=
  if pyStrip ocr_text = [] then
    ({ success := false, data := none, error := some ("OCR text is empty".data) }, [])
  else
    match initialize_gemini_client env with
    | .error e => ({ success := false, data := none, error := some e }, [])
    | .ok _ =>
      let full_prompt :=
        GeminiConfig.system_prompt env ++ ("\n\n".data) ++ build_prompt ocr_text
      match env.generate full_prompt with
      | .error e =>
        ({ success := false, data := none, error := some e },
         [Eff.clientInit, Eff.generateCall])
      | .ok text =>
        match parse_json_safely text with
        | none =>
          ({ success := false, data := none,
             error := some ("JSONDecodeError: Expecting value".data) },
           [Eff.clientInit, Eff.generateCall])
        | some j =>
          ({ success := true, data := some j, error := none },
           [Eff.clientInit, Eff.generateCall])

/-- Body of the scan endpoint's 200 response. -/
structure ScanResponse where
  success : Bool
  ocr_text : Str
  data : Option Json
  error : Option Str

/-- `POST /\x7bpatient_id\x7d/scan` — check the OCR client is importable, save the
upload to a fresh temporary directory, run OCR, run extraction, and return the
combined payload; exceptions inside the OCR/extraction block become a 500,
and the temporary directory is removed in a `finally` in every path that
reaches it.  The patient id is never validated. -/
def scan_and_extract_prescription (env : ScanEnv) (patient_id : Str) :
    Except ApiError ScanResponse × List Eff :=
  if !env.ocrAvailable then
    (.error (.internalError ("OCR client not available on server".data)), [])
  else
    match env.saveUploadResult with
    | .error e => (.error (.internalError e), [Eff.saveUpload, Eff.removeTmp])
    | .ok _ =>
      match env.ocrResult with
      | .error e =>
        (.error (.internalError e), [Eff.saveUpload, Eff.ocrCall, Eff.removeTmp])
      | .ok out =>
        match (match out with
               | OcrOut.single t => some t
               | OcrOut.listRes ts => ts.head?) with
        | none =>
          (.error (.internalError ("IndexError: list index out of range".data)),
           [Eff.saveUpload, Eff.ocrCall, Eff.removeTmp])
        | some raw_text =>
          let (extraction, es) := extract_structured_data env raw_text
          (.ok { success := extraction.success, ocr_text := raw_text,
                 data := extraction.data, error := extraction.error },
           [Eff.saveUpload, Eff.ocrCall] ++ es ++ [Eff.removeTmp])

-- ===========================================================================
-- Helper lemmas.
-- ===========================================================================

theorem dropWhile_of_forall_not {p : Char → Bool} {s : Str}
    (h : ∀ c ∈ s, p c = false) : s.dropWhile p = s := by
  cases s with
  | nil => rfl
  | cons c rest => simp [List.dropWhile_cons, h c (List.mem_cons_self c rest)]

theorem removeOcc_of_head_notMem {p0 : Char} {pt : Str} {s : Str}
    (h : p0 ∉ s) (fuel : Nat) : removeOcc (p0 :: pt) fuel s = s := by
  induction fuel generalizing s with
  | zero => rfl
  | succ n ih =>
    unfold removeOcc
    have hnp : ¬(p0 :: pt ≠ [] ∧ p0 :: pt <+: s) := by
      rintro ⟨-, hp⟩
      cases s with
      | nil => exact List.cons_ne_nil p0 pt (List.prefix_nil.mp hp)
      | cons c rest =>
        exact h (((List.cons_prefix_cons.mp hp).1) ▸ List.mem_cons_self c rest)
    rw [if_neg hnp]
    cases s with
    | nil => rfl
    | cons c rest =>
      simpa using ih (s := rest) (fun hm => h (List.mem_cons_of_mem c hm))

theorem removeAll_of_head_notMem {p0 : Char} {pt : Str} {s : Str}
    (h : p0 ∉ s) : removeAll (p0 :: pt) s = s :=
  removeOcc_of_head_notMem h s.length

theorem stripBraces_of_no_braces {s : Str}
    (h : ∀ c ∈ s, isBraceChar c = false) : stripBraces s = s := by
  unfold stripBraces
  rw [dropWhile_of_forall_not h,
      dropWhile_of_forall_not (fun c hc => h c (List.mem_reverse.mp hc)),
      List.reverse_reverse]

/-- A canonical UUID string parses to itself. -/
theorem parseUUID_canonical {u : UUID} (h : isCanonicalUUID u = true) :
    parseUUID u = some u := by
  have h' := h
  unfold isCanonicalUUID at h'
  rw [Bool.and_eq_true] at h'
  obtain ⟨hlen, hall⟩ := h'
  have hlen' : u.length = 32 := by rwa [beq_iff_eq] at hlen
  rw [List.all_eq_true] at hall
  have hhex : ∀ c ∈ u, isHexDigitPy c = true := by
    intro c hc
    have h2 := hall c hc
    rw [Bool.and_eq_true] at h2
    exact h2.1
  have hlow : ∀ c ∈ u, Char.toLower c = c := by
    intro c hc
    have h2 := hall c hc
    rw [Bool.and_eq_true] at h2
    exact eq_of_beq h2.2
  have hnot : ∀ (x : Char), isHexDigitPy x = false → x ∉ u := by
    intro x hx hmem
    rw [hhex x hmem] at hx
    exact Bool.noConfusion hx
  have hbrace : ∀ c ∈ u, isBraceChar c = false := by
    intro c hc
    have hcx := hhex c hc
    by_contra hb
    rw [Bool.not_eq_false, isBraceChar, Bool.or_eq_true] at hb
    rcases hb with hb | hb <;>
      (rw [decide_eq_true_eq] at hb; rw [hb] at hcx; exact absurd hcx (by decide))
  simp only [parseUUID]
  rw [removeAll_of_head_notMem (hnot 'u' (by decide)),
      removeAll_of_head_notMem (hnot 'u' (by decide)),
      stripBraces_of_no_braces hbrace,
      removeAll_of_head_notMem (hnot '-' (by decide))]
  rw [if_pos ⟨hlen', List.all_eq_true.mpr hhex⟩]
  rw [List.map_congr_left hlow]
  simp

theorem pyStrip_eq_self {s : Str}
    (ha : ∀ c ∈ s.head?, pyWs c = false)
    (hb : ∀ c ∈ s.getLast?, pyWs c = false) : pyStrip s = s := by
  cases s with
  | nil => rfl
  | cons a l =>
    have ha' : pyWs a = false := ha a rfl
    unfold pyStrip pyLStrip pyRStrip
    rw [List.dropWhile_cons, if_neg (by simp [ha'])]
    cases hr : (a :: l).reverse with
    | nil => exact absurd hr (by simp)
    | cons b t =>
      have hbl : (a :: l).getLast? = some b := by
        rw [← List.head?_reverse, hr]; rfl
      have hb' : pyWs b = false := hb b hbl
      rw [List.dropWhile_cons, if_neg (by simp [hb'])]
      rw [← hr, List.reverse_reverse]

theorem pyStrip_cons_head {c : Char} {s : Str} (hc : pyWs c = false) :
    ∃ t, pyStrip (c :: s) = c :: t := by
  unfold pyStrip pyLStrip pyRStrip
  rw [List.dropWhile_cons, if_neg (by simp [hc])]
  rw [show (c :: s).reverse = s.reverse ++ [c] by simp]
  rw [List.dropWhile_append]
  by_cases he : (s.reverse.dropWhile pyWs).isEmpty
  · refine ⟨[], ?_⟩
    rw [if_pos he]
    simp [List.dropWhile_cons, hc]
  · refine ⟨(s.reverse.dropWhile pyWs).reverse, ?_⟩
    rw [if_neg he]
    simp

theorem removeprefixPy_append (p rest : Str) :
    removeprefixPy (p ++ rest) p = rest := by
  unfold removeprefixPy
  rw [if_pos (List.prefix_append p rest), List.drop_left]

theorem removeprefixPy_of_not {s p : Str} (h : ¬(p <+: s)) :
    removeprefixPy s p = s := by
  unfold removeprefixPy
  rw [if_neg h]

theorem removesuffixPy_append (w : Str) {p : Str} (hp : p ≠ []) :
    removesuffixPy (w ++ p) p = w := by
  unfold removesuffixPy
  rw [if_pos ⟨hp, List.suffix_append w p⟩]
  have hl : (w ++ p).length - p.length = w.length := by
    simp [List.length_append]
  rw [hl, List.take_left]

theorem json_loads_nil : json_loads [] = none := rfl

theorem json_loads_cons_j (cs : Str) : json_loads ('j' :: cs) = none := rfl

theorem json_loads_cons_backtick (cs : Str) : json_loads ('`' :: cs) = none := rfl

theorem not_jsonfence_pre {w : Str} (hne : w ≠ []) (hj : w.head? ≠ some 'j') :
    ¬((("```json".data) : Str) <+: (("```".data) ++ (w ++ ("```".data)))) := by
  intro hp
  have hkey : (("```json".data) : Str) = ("```".data) ++ ("json".data) := rfl
  rw [hkey] at hp
  have hp' : (("json".data) : Str) <+: (w ++ ("```".data)) :=
    (List.prefix_append_right_inj ("```".data)).mp hp
  cases w with
  | nil => exact hne rfl
  | cons c t =>
    have hc := (List.cons_prefix_cons.mp hp').1
    exact hj (by rw [← hc]; rfl)

theorem not_backtick_pre {w : Str} (hne : w ≠ []) (hb : w.head? ≠ some '`') :
    ¬((("```".data) : Str) <+: (w ++ ("```".data))) := by
  intro hp
  cases w with
  | nil => exact hne rfl
  | cons c t =>
    have hc := (List.cons_prefix_cons.mp hp).1
    exact hb (by rw [← hc]; rfl)

/-- Head and tail facts about `w` forced by its stripped form parsing as a
JSON value. -/
theorem loads_strip_facts {w : Str} {v : Json}
    (h : json_loads (pyStrip w) = some v) :
    w ≠ [] ∧ w.head? ≠ some 'j' ∧ w.head? ≠ some '`' := by
  refine ⟨?_, ?_, ?_⟩
  · intro hw
    rw [hw] at h
    exact Option.noConfusion (json_loads_nil ▸ h)
  · intro hw
    cases w with
    | nil => exact Option.noConfusion hw
    | cons c t =>
      have hc : c = 'j' := by simpa using hw
      subst hc
      obtain ⟨t', ht'⟩ := pyStrip_cons_head (c := 'j') (s := t) (by decide)
      rw [ht'] at h
      exact Option.noConfusion (json_loads_cons_j t' ▸ h)
  · intro hw
    cases w with
    | nil => exact Option.noConfusion hw
    | cons c t =>
      have hc : c = '`' := by simpa using hw
      subst hc
      obtain ⟨t', ht'⟩ := pyStrip_cons_head (c := '`') (s := t) (by decide)
      rw [ht'] at h
      exact Option.noConfusion (json_loads_cons_backtick t' ▸ h)

theorem getLast_fence (x : Str) :
    (x ++ (("```".data) : Str)).getLast? = some '`' := by
  rw [List.getLast?_append]
  rfl

theorem pyStrip_fence_wrapped (pre : Str) (w : Str)
    (hpre : pre.head? = some '`') :
    pyStrip (pre ++ (w ++ ("```".data))) = pre ++ (w ++ ("```".data)) := by
  apply pyStrip_eq_self
  · intro c hc
    cases pre with
    | nil => exact Option.noConfusion hpre
    | cons a t =>
      have ha : a = '`' := by simpa using hpre
      have hcc : c = '`' := by
        rw [List.cons_append, List.head?_cons] at hc
        have := Option.mem_def.mp hc
        rw [ha] at this
        exact (Option.some.injEq _ _ ▸ this).symm
      rw [hcc]
      rfl
  · intro c hc
    rw [show pre ++ (w ++ (("```".data) : Str)) = (pre ++ w) ++ ("```".data) by
      rw [List.append_assoc]] at hc
    rw [getLast_fence (pre ++ w)] at hc
    have hcc : c = '`' := by
      have := by simpa using hc
      exact this.symm
    rw [hcc]
    rfl

/-- The cleaning step maps fence-wrapped text to the stripped inner text
(for both the plain and the `json`-tagged opening fence). -/
theorem parse_json_clean_wrapped {w : Str} {v : Json}
    (h : json_loads (pyStrip w) = some v) :
    parse_json_clean (("```json".data) ++ (w ++ ("```".data))) = pyStrip w ∧
    parse_json_clean (("```".data) ++ (w ++ ("```".data))) = pyStrip w := by
  obtain ⟨hne, hj, hb⟩ := loads_strip_facts h
  constructor
  · unfold parse_json_clean
    rw [pyStrip_fence_wrapped ("```json".data) w rfl]
    rw [if_pos (by
      rw [show (("```json".data) : Str) ++ (w ++ ("```".data)) =
          ("```".data) ++ (("json".data) ++ (w ++ ("```".data))) from rfl]
      exact List.prefix_append _ _)]
    rw [show (("```json".data) : Str) ++ (w ++ ("```".data)) =
        ("```json".data) ++ (w ++ ("```".data)) from rfl]
    rw [removeprefixPy_append ("```json".data) (w ++ ("```".data))]
    rw [removeprefixPy_of_not (not_backtick_pre hne hb)]
    rw [removesuffixPy_append w (by decide)]
  · unfold parse_json_clean
    rw [pyStrip_fence_wrapped ("```".data) w rfl]
    rw [if_pos (List.prefix_append _ _)]
    rw [removeprefixPy_of_not (not_jsonfence_pre hne hj)]
    rw [removeprefixPy_append ("```".data) (w ++ ("```".data))]
    rw [removesuffixPy_append w (by decide)]

-- ===========================================================================
-- Concrete fixtures used by witnesses and counterexamples.
-- ===========================================================================

def puA : UUID := ("aaaaaaaaaaaaaaaaaaaaaaaaaaaaaaaa".data)
def puB : UUID := ("bbbbbbbbbbbbbbbbbbbbbbbbbbbbbbbb".data)
def ruC : UUID := ("cccccccccccccccccccccccccccccccc".data)
def freshD : UUID := ("dddddddddddddddddddddddddddddddd".data)

def pidAstr : Str := ("aaaaaaaa-aaaa-aaaa-aaaa-aaaaaaaaaaaa".data)
def pidBstr : Str := ("bbbbbbbb-bbbb-bbbb-bbbb-bbbbbbbbbbbb".data)
def ridCstr : Str := ("cccccccc-cccc-cccc-cccc-cccccccccccc".data)
def badIdStr : Str := ("zzz".data)

def dt1 : PyDateTime := ⟨2024, 1, 15, 10, 30, 0, 0⟩

def demoPatientA : Patient :=
  { id := puA, name := ("Asha".data), mobile := ("9999999999".data),
    abha_id := ("11-2222-3333".data) }

def demoPatientB : Patient :=
  { id := puB, name := ("Bela".data), mobile := ("8888888888".data),
    abha_id := ("44-5555-6666".data) }

def recC : HealthRecord :=
  { id := ruC, patient_id := puA, record_type := ("PRESCRIPTION".data),
    record_date := dt1,
    data_json := Json.obj [(("note".data), Json.str ("x".data))],
    data_text := none, source_hospital := none, request_id := none,
    was_encrypted := false, decryption_status := ("NONE".data),
    delivery_attempt := 0, created_at := dt1, updated_at := dt1 }

def demoStore : Store := { patients := [demoPatientA, demoPatientB], records := [recC] }

def demoStoreZero : Store := { patients := [demoPatientA], records := [] }

def demoEnv : ReqEnv := { freshId := freshD, now := dt1 }

def demoReq : CreateHealthRecordRequest :=
  { recordType := ("PRESCRIPTION".data),
    recordDate := ("2024-01-15T10:30:00".data),
    data := Json.obj [(("note".data), Json.str ("x".data))],
    dataText := none }

def demoReqBadDate : CreateHealthRecordRequest :=
  { recordType := ("PRESCRIPTION".data),
    recordDate := ("not-a-date".data),
    data := Json.obj [(("note".data), Json.str ("x".data))],
    dataText := none }

def scanEnvOk : ScanEnv :=
  { ocrAvailable := true, geminiInstalled := true,
    apiKeyEnv := some ("test-key".data), modelEnv := none, promptEnv := none,
    saveUploadResult := .ok (),
    ocrResult := .ok (OcrOut.single ("Rx: paracetamol 500mg".data)),
    generate := fun _ => .ok (("```json\n\x7b\"patient_name\":\"A\"\x7d\n```".data)) }

def scanEnvNoKey : ScanEnv :=
  { scanEnvOk with apiKeyEnv := none }

-- ===========================================================================
-- Claims.
-- ===========================================================================

/-- C1 counterexample: with the extraction API key absent from the process
configuration, the scan request does NOT fail with a 500-class error; the
missing-key `RuntimeError` is caught inside `extract_structured_data` and the
endpoint returns an HTTP 200 with an in-band `success = false` payload. -/
theorem C1_missing_key_cex :
    scanEnvNoKey.apiKeyEnv = none ∧
    (scan_and_extract_prescription scanEnvNoKey pidAstr).1 =
      .ok { success := false, ocr_text := ("Rx: paracetamol 500mg".data),
            data := none,
            error := some ("GEMINI_API_KEY is not configured".data) } :=
  ⟨rfl, rfl⟩

/-- C1 (amended): when the extraction API key is absent and the upload and
OCR steps succeed with non-blank text, the scan request returns HTTP 200 with
an in-band failure payload (`success = false`, null data, the
configuration-error message) and never calls the generate step; the
configuration error is not surfaced as a 500-class response. -/
theorem C1_missing_key_in_band (env : ScanEnv) (pid t : Str)
    (h1 : env.ocrAvailable = true) (h2 : env.geminiInstalled = true)
    (h3 : env.apiKeyEnv = none) (h4 : env.saveUploadResult = .ok ())
    (h5 : env.ocrResult = .ok (OcrOut.single t)) (h6 : ¬pyStrip t = []) :
    scan_and_extract_prescription env pid =
      (.ok { success := false, ocr_text := t, data := none,
             error := some ("GEMINI_API_KEY is not configured".data) },
       [Eff.saveUpload, Eff.ocrCall, Eff.removeTmp]) := by
  unfold scan_and_extract_prescription extract_structured_data
    initialize_gemini_client GeminiConfig.api_key
  simp [h1, h2, h3, h4, h5, h6, Except.map]

theorem C1_missing_key_in_band_witness :
    scan_and_extract_prescription scanEnvNoKey pidAstr =
      (.ok { success := false, ocr_text := ("Rx: paracetamol 500mg".data),
             data := none,
             error := some ("GEMINI_API_KEY is not configured".data) },
       [Eff.saveUpload, Eff.ocrCall, Eff.removeTmp]) :=
  C1_missing_key_in_band scanEnvNoKey pidAstr ("Rx: paracetamol 500mg".data)
    rfl rfl rfl rfl rfl (by decide)

/-- C2 counterexample: for the malformed patient id "zzz", the scan endpoint
(which takes a patient id) does not return InvalidArgument at all, and the
list endpoint executes a record-store query with the malformed identifier
before returning 400. -/
theorem C2_malformed_id_cex :
    parseUUID badIdStr = none ∧
    (scan_and_extract_prescription scanEnvOk badIdStr).1 =
      .ok { success := true, ocr_text := ("Rx: paracetamol 500mg".data),
            data := some (Json.obj [(("patient_name".data), Json.str ("A".data))]),
            error := none } ∧
    (list_health_records demoStore badIdStr none none).2 =
      [Eff.recordsQuery badIdStr] :=
  ⟨rfl, rfl, rfl⟩

/-- C2 (amended): for a malformed patient id, the summary, external,
single-record, create and delete endpoints return InvalidArgument (400)
before any store access (empty effect trace); the three list-style endpoints
first execute the record-store query with the malformed identifier and only
then return 400; and the scan endpoint performs no identifier validation at
all (its behaviour is independent of the patient id). -/
theorem C2_malformed_id_handling (st : Store) (env : ReqEnv) (senv : ScanEnv)
    (pid pid2 rid rt hosp : Str) (req : CreateHealthRecordRequest)
    (ort osh : Option Str)
    (h : parseUUID pid = none) :
    get_health_record_details st pid rid =
      (.error (.badRequest ("Invalid ID format".data)), []) ∧
    get_patient_health_summary st pid =
      (.error (.badRequest ("Invalid patient ID format".data)), []) ∧
    list_external_health_records st pid =
      (.error (.badRequest ("Invalid patient ID format".data)), []) ∧
    create_health_record env st pid req =
      (.error (.badRequest ("Invalid patient ID format".data)), [], st) ∧
    delete_health_record st pid rid =
      (.error (.badRequest ("Invalid ID format".data)), [], st) ∧
    list_health_records st pid ort osh =
      (.error (.badRequest ("Invalid patient ID format".data)), [Eff.recordsQuery pid]) ∧
    get_records_by_type st pid rt =
      (.error (.badRequest ("Invalid patient ID format".data)), [Eff.recordsQuery pid]) ∧
    get_records_from_hospital st pid hosp =
      (.error (.badRequest ("Invalid patient ID format".data)), [Eff.recordsQuery pid]) ∧
    scan_and_extract_prescription senv pid = scan_and_extract_prescription senv pid2 := by
  refine ⟨?_, ?_, ?_, ?_, ?_, ?_, ?_, ?_, rfl⟩ <;>
    simp [get_health_record_details, get_patient_health_summary,
          list_external_health_records, create_health_record,
          delete_health_record, list_health_records, get_records_by_type,
          get_records_from_hospital, get_health_records_for_patient, h]

theorem C2_malformed_id_handling_witness :
    get_health_record_details demoStore badIdStr ridCstr =
      (.error (.badRequest ("Invalid ID format".data)), []) ∧
    get_patient_health_summary demoStore badIdStr =
      (.error (.badRequest ("Invalid patient ID format".data)), []) ∧
    list_external_health_records demoStore badIdStr =
      (.error (.badRequest ("Invalid patient ID format".data)), []) ∧
    create_health_record demoEnv demoStore badIdStr demoReq =
      (.error (.badRequest ("Invalid patient ID format".data)), [], demoStore) ∧
    delete_health_record demoStore badIdStr ridCstr =
      (.error (.badRequest ("Invalid ID format".data)), [], demoStore) ∧
    list_health_records demoStore badIdStr none none =
      (.error (.badRequest ("Invalid patient ID format".data)), [Eff.recordsQuery badIdStr]) ∧
    get_records_by_type demoStore badIdStr ("PRESCRIPTION".data) =
      (.error (.badRequest ("Invalid patient ID format".data)), [Eff.recordsQuery badIdStr]) ∧
    get_records_from_hospital demoStore badIdStr ("HOSP-1".data) =
      (.error (.badRequest ("Invalid patient ID format".data)), [Eff.recordsQuery badIdStr]) ∧
    scan_and_extract_prescription scanEnvOk badIdStr =
      scan_and_extract_prescription scanEnvOk pidAstr :=
  C2_malformed_id_handling demoStore demoEnv scanEnvOk badIdStr pidAstr ridCstr
    ("PRESCRIPTION".data) ("HOSP-1".data) demoReq none none rfl

/-- C5 (code bug): for an existing patient with zero records the
spec-modelled summary service yields total 0, empty mappings and a null
last-updated value, but the `HealthRecordSummaryResponse` schema in the
source declares `lastUpdated` as a required string, so the endpoint fails
response validation (a 500-class error) instead of succeeding. -/
theorem C5_zero_records_summary_bug :
    (get_health_record_summary demoStoreZero pidAstr).1 =
      { totalRecords := 0, byType := [], bySource := [], lastUpdated := none } ∧
    get_patient_health_summary demoStoreZero pidAstr =
      (.error (.internalError ("response validation failed: lastUpdated must be a string".data)),
       [Eff.patientLookup puA, Eff.recordsQuery pidAstr]) :=
  ⟨rfl, rfl⟩

/-- C6: for OCR text that is empty or whitespace-only, the extraction step
returns `success = false`, null data and a non-null error message, with an
empty effect trace — no client is initialized and no generate call is made. -/
theorem C6_blank_ocr_short_circuits (env : ScanEnv) (t : Str)
    (h : pyStrip t = []) :
    extract_structured_data env t =
      ({ success := false, data := none,
         error := some ("OCR text is empty".data) }, []) := by
  unfold extract_structured_data
  rw [if_pos h]

theorem C6_blank_ocr_short_circuits_witness :
    pyStrip ((" \n\t ".data)) = [] ∧
    extract_structured_data scanEnvOk ((" \n\t ".data)) =
      ({ success := false, data := none,
         error := some ("OCR text is empty".data) }, []) :=
  ⟨rfl, C6_blank_ocr_short_circuits scanEnvOk ((" \n\t ".data)) rfl⟩

/-- C8: every scan request that reaches the temporary-upload step (the OCR
client is available, so the handler passes the availability check and creates
the temporary directory) ends its effect trace with the removal of the
temporary directory, whichever step fails. -/
theorem C8_tmpdir_always_removed (env : ScanEnv) (pid : Str)
    (h : env.ocrAvailable = true) :
    ∃ pre, (scan_and_extract_prescription env pid).2 = pre ++ [Eff.removeTmp] := by
  unfold scan_and_extract_prescription
  rw [h]
  cases hs : env.saveUploadResult with
  | error e => exact ⟨[Eff.saveUpload], rfl⟩
  | ok u =>
    cases ho : env.ocrResult with
    | error e => exact ⟨[Eff.saveUpload, Eff.ocrCall], rfl⟩
    | ok out =>
      cases out with
      | single t =>
        cases hex : extract_structured_data env t with
        | mk ex es =>
          refine ⟨[Eff.saveUpload, Eff.ocrCall] ++ es, ?_⟩
          simp [hex, List.append_assoc]
      | listRes ts =>
        cases ts with
        | nil => exact ⟨[Eff.saveUpload, Eff.ocrCall], rfl⟩
        | cons a tl =>
          cases hex : extract_structured_data env a with
          | mk ex es =>
            refine ⟨[Eff.saveUpload, Eff.ocrCall] ++ es, ?_⟩
            simp [hex, List.append_assoc]

theorem C8_tmpdir_always_removed_witness :
    ∃ pre, (scan_and_extract_prescription scanEnvOk pidAstr).2 =
      pre ++ [Eff.removeTmp] :=
  C8_tmpdir_always_removed scanEnvOk pidAstr rfl

/-- C10: a create request with a well-formed patient id that resolves to an
existing patient but an invalid ISO-8601 record date fails with an unhandled
`ValueError` surfaced as a 500-class internal error (not InvalidArgument);
the effect trace shows the patient-existence check already ran, and no
record is inserted — the store is returned unchanged. -/
theorem C10_invalid_date_500 (env : ReqEnv) (st : Store) (pid : Str)
    (req : CreateHealthRecordRequest) (pu : UUID) (p : Patient)
    (hp : parseUUID pid = some pu)
    (hpat : findPatient st pu = some p)
    (hd : fromisoformat req.recordDate = none) :
    create_health_record env st pid req =
      (.error (.internalError ("ValueError: invalid isoformat string".data)),
       [Eff.patientLookup pu], st) := by
  simp only [create_health_record, hp, hpat, hd]

theorem C10_invalid_date_500_witness :
    fromisoformat demoReqBadDate.recordDate = none ∧
    create_health_record demoEnv demoStore pidAstr demoReqBadDate =
      (.error (.internalError ("ValueError: invalid isoformat string".data)),
       [Eff.patientLookup puA], demoStore) :=
  ⟨rfl, C10_invalid_date_500 demoEnv demoStore pidAstr demoReqBadDate puA
    demoPatientA rfl rfl rfl⟩

/-- C7: when the extraction-collaborator response is a JSON object wrapped in
a fenced code block — a leading ` ```json ` or ` ``` ` marker and a trailing
` ``` ` marker — `_parse_json_safely` returns exactly the inner JSON object;
the result is the object itself, so no fence markers leak into it. -/
theorem C7_fenced_json_parses (w : Str) (o : List (Str × Json))
    (h : json_loads (pyStrip w) = some (Json.obj o)) :
    parse_json_safely (("```json".data) ++ (w ++ ("```".data))) = some (Json.obj o) ∧
    parse_json_safely (("```".data) ++ (w ++ ("```".data))) = some (Json.obj o) := by
  obtain ⟨h1, h2⟩ := parse_json_clean_wrapped h
  constructor
  · unfold parse_json_safely
    rw [h1]
    exact h
  · unfold parse_json_safely
    rw [h2]
    exact h

def innerW : Str := ("\n\x7b\"patient_name\":\"A\"\x7d\n".data)

def innerO : List (Str × Json) := [(("patient_name".data), Json.str ("A".data))]

theorem C7_fenced_json_parses_witness :
    json_loads (pyStrip innerW) = some (Json.obj innerO) ∧
    parse_json_safely (("```json".data) ++ (innerW ++ ("```".data))) = some (Json.obj innerO) ∧
    parse_json_safely (("```".data) ++ (innerW ++ ("```".data))) = some (Json.obj innerO) :=
  ⟨rfl, (C7_fenced_json_parses innerW innerO rfl).1,
        (C7_fenced_json_parses innerW innerO rfl).2⟩

/-- C3: creating a record for an existing patient and fetching it by the
returned id yields the same type, the stored date value rendered canonically,
the same payload, a null source hospital, and creation/update timestamps
stamped with the request time; the returned id is the server-generated fresh
id (for every request body — the request schema has no id field). -/
theorem C3_create_then_get (env : ReqEnv) (st : Store) (pid : Str)
    (req : CreateHealthRecordRequest) (pu : UUID) (d : PyDateTime) (p : Patient)
    (hpid : parseUUID pid = some pu)
    (hpat : findPatient st pu = some p)
    (hdate : fromisoformat req.recordDate = some d)
    (hcanon : isCanonicalUUID env.freshId = true)
    (hfresh : ∀ r ∈ st.records, r.id ≠ env.freshId) :
    ∃ resp newRec,
      (create_health_record env st pid req).1 = .ok resp ∧
      resp.id = env.freshId ∧
      (create_health_record env st pid req).2.2.records = st.records ++ [newRec] ∧
      newRec.id = env.freshId ∧
      newRec.created_at = env.now ∧
      newRec.updated_at = env.now ∧
      (get_health_record_details (create_health_record env st pid req).2.2 pid resp.id).1 =
        .ok resp ∧
      resp.type = req.recordType ∧
      resp.date = isoformat d ∧
      resp.data = req.data ∧
      resp.sourceHospital = none ∧
      resp.receivedAt = isoformat env.now := by
  have hcreate : create_health_record env st pid req =
      (.ok (recordToResponse
        { id := env.freshId, patient_id := pu, record_type := req.recordType,
          record_date := d, data_json := req.data, data_text := req.dataText,
          source_hospital := none, request_id := none, was_encrypted := false,
          decryption_status := ("NONE".data), delivery_attempt := 0,
          created_at := env.now, updated_at := env.now }),
       [Eff.patientLookup pu, Eff.insertRecord env.freshId],
       { st with records := st.records ++
          [{ id := env.freshId, patient_id := pu, record_type := req.recordType,
             record_date := d, data_json := req.data, data_text := req.dataText,
             source_hospital := none, request_id := none, was_encrypted := false,
             decryption_status := ("NONE".data), delivery_attempt := 0,
             created_at := env.now, updated_at := env.now }] }) := by
    simp only [create_health_record, hpid, hpat, hdate]
  have hstore : (create_health_record env st pid req).2.2 =
      { st with records := st.records ++
          [{ id := env.freshId, patient_id := pu, record_type := req.recordType,
             record_date := d, data_json := req.data, data_text := req.dataText,
             source_hospital := none, request_id := none, was_encrypted := false,
             decryption_status := ("NONE".data), delivery_attempt := 0,
             created_at := env.now, updated_at := env.now }] } := by
    rw [hcreate]
  refine ⟨_, _, by rw [hcreate], rfl, by rw [hstore], rfl, rfl, rfl, ?_, rfl, rfl, rfl, rfl, rfl⟩
  rw [hstore]
  have hfind : findRecord
      { st with records := st.records ++
        [{ id := env.freshId, patient_id := pu, record_type := req.recordType,
           record_date := d, data_json := req.data, data_text := req.dataText,
           source_hospital := none, request_id := none, was_encrypted := false,
           decryption_status := ("NONE".data), delivery_attempt := 0,
           created_at := env.now, updated_at := env.now }] } pu env.freshId =
      some { id := env.freshId, patient_id := pu, record_type := req.recordType,
             record_date := d, data_json := req.data, data_text := req.dataText,
             source_hospital := none, request_id := none, was_encrypted := false,
             decryption_status := ("NONE".data), delivery_attempt := 0,
             created_at := env.now, updated_at := env.now } := by
    unfold findRecord
    rw [List.find?_append]
    have hnone : st.records.find?
        (fun r => r.id == env.freshId && r.patient_id == pu) = none := by
      rw [List.find?_eq_none]
      intro x hx hpx
      rw [Bool.and_eq_true, beq_iff_eq, beq_iff_eq] at hpx
      exact hfresh x hx hpx.1
    rw [hnone]
    simp [List.find?]
  unfold get_health_record_details
  simp only [recordToResponse, hpid, parseUUID_canonical hcanon, hfind]

theorem C3_create_then_get_witness :
    ∃ resp newRec,
      (create_health_record demoEnv demoStore pidAstr demoReq).1 = .ok resp ∧
      resp.id = demoEnv.freshId ∧
      (create_health_record demoEnv demoStore pidAstr demoReq).2.2.records =
        demoStore.records ++ [newRec] ∧
      newRec.id = demoEnv.freshId ∧
      newRec.created_at = demoEnv.now ∧
      newRec.updated_at = demoEnv.now ∧
      (get_health_record_details
        (create_health_record demoEnv demoStore pidAstr demoReq).2.2 pidAstr resp.id).1 =
        .ok resp ∧
      resp.type = demoReq.recordType ∧
      resp.date = isoformat dt1 ∧
      resp.data = demoReq.data ∧
      resp.sourceHospital = none ∧
      resp.receivedAt = isoformat demoEnv.now :=
  C3_create_then_get demoEnv demoStore pidAstr demoReq puA dt1 demoPatientA
    rfl rfl rfl (by decide)
    (fun r hr => by
      rw [show demoStore.records = [recC] from rfl, List.mem_singleton] at hr
      rw [hr]
      decide)

/-- C4: deleting an existing record of an existing patient and then fetching
it by the same patient id and record id returns NotFound (404). -/
theorem C4_delete_then_get (st : Store) (pid rid : Str) (pu ru : UUID)
    (r : HealthRecord)
    (hp : parseUUID pid = some pu) (hr : parseUUID rid = some ru)
    (hex : findRecord st pu ru = some r) :
    (delete_health_record st pid rid).1 =
      .ok { status := ("DELETED".data), recordId := rid,
            message := ("Health record ".data) ++ rid ++ (" deleted successfully".data) } ∧
    (get_health_record_details (delete_health_record st pid rid).2.2 pid rid).1 =
      .error (.notFound (("Health record ".data) ++ rid ++
        (" not found for patient ".data) ++ pid)) := by
  have hdel : delete_health_record st pid rid =
      (.ok { status := ("DELETED".data), recordId := rid,
             message := ("Health record ".data) ++ rid ++ (" deleted successfully".data) },
       [Eff.recordLookup pu ru, Eff.deleteRecord ru],
       { st with records := st.records.filter (fun x => !(x.id == ru)) }) := by
    simp only [delete_health_record, hp, hr, hex]
  have hfind : findRecord
      { st with records := st.records.filter (fun x => !(x.id == ru)) } pu ru = none := by
    unfold findRecord
    rw [List.find?_eq_none]
    intro x hx hpx
    rw [Bool.and_eq_true, beq_iff_eq, beq_iff_eq] at hpx
    have hq := (List.mem_filter.mp hx).2
    rw [hpx.1] at hq
    simp at hq
  refine ⟨by rw [hdel], ?_⟩
  rw [hdel]
  unfold get_health_record_details
  simp only [hp, hr, hfind]

theorem C4_delete_then_get_witness :
    (delete_health_record demoStore pidAstr ridCstr).1 =
      .ok { status := ("DELETED".data), recordId := ridCstr,
            message := ("Health record ".data) ++ ridCstr ++ (" deleted successfully".data) } ∧
    (get_health_record_details (delete_health_record demoStore pidAstr ridCstr).2.2
        pidAstr ridCstr).1 =
      .error (.notFound (("Health record ".data) ++ ridCstr ++
        (" not found for patient ".data) ++ pidAstr)) :=
  C4_delete_then_get demoStore pidAstr ridCstr puA ruC recC rfl rfl rfl

/-- C9: record access is patient-scoped — fetching or deleting an existing
record through a different (well-formed) patient id returns NotFound, and the
delete leaves the store unchanged. -/
theorem C9_record_access_patient_scoped (st : Store) (pid2 rid : Str)
    (pu2 ru : UUID) (r : HealthRecord)
    (hpu : parseUUID pid2 = some pu2) (hru : parseUUID rid = some ru)
    (hmem : r ∈ st.records) (hid : r.id = ru) (hown : r.patient_id ≠ pu2)
    (huniq : st.records.Pairwise (fun a b => a.id ≠ b.id)) :
    (get_health_record_details st pid2 rid).1 =
      .error (.notFound (("Health record ".data) ++ rid ++
        (" not found for patient ".data) ++ pid2)) ∧
    delete_health_record st pid2 rid =
      (.error (.notFound (("Health record ".data) ++ rid ++
        (" not found for patient ".data) ++ pid2)),
       [Eff.recordLookup pu2 ru], st) := by
  have hfind : findRecord st pu2 ru = none := by
    unfold findRecord
    rw [List.find?_eq_none]
    intro x hx hpx
    rw [Bool.and_eq_true, beq_iff_eq, beq_iff_eq] at hpx
    rcases eq_or_ne x r with he | hne
    · rw [he] at hpx
      exact hown hpx.2
    · have hsym : Symmetric (fun (a b : HealthRecord) => a.id ≠ b.id) :=
        fun a b hab => Ne.symm hab
      exact (huniq.forall hsym) hx hmem hne (by rw [hpx.1, hid])
  constructor
  · unfold get_health_record_details
    simp only [hpu, hru, hfind]
  · simp only [delete_health_record, hpu, hru, hfind]

theorem C9_record_access_patient_scoped_witness :
    (get_health_record_details demoStore pidBstr ridCstr).1 =
      .error (.notFound (("Health record ".data) ++ ridCstr ++
        (" not found for patient ".data) ++ pidBstr)) ∧
    delete_health_record demoStore pidBstr ridCstr =
      (.error (.notFound (("Health record ".data) ++ ridCstr ++
        (" not found for patient ".data) ++ pidBstr)),
       [Eff.recordLookup puB ruC], demoStore) :=
  C9_record_access_patient_scoped demoStore pidBstr ridCstr puB ruC recC
    rfl rfl (List.mem_singleton.mpr rfl) rfl (by decide)
    (List.pairwise_singleton _ _)
